import Mathlib

/-!
Verification of the weather enrichment and aggregation engine of the
anita-snowflake repository.

The engine lives in two near-duplicate scripts:
* scripts/transformation/data_transformation.py
  (class SimpleWeatherTransformation), the primary variant; and
* scripts/transformation/.ipynb_checkpoints/data_transformation-checkpoint.py
  (class WeatherDataTransformation), the checkpoint variant, which also holds
  the daily aggregation logic.

Floats are modelled as rationals: every constant appearing in the source
(23.5, 0.3, 0.2, ...) is exactly representable.  Nullable columns are
modelled as Option values.  Pandas/NumPy NaN semantics matter in the
checkpoint variant, where several classifiers compare a possibly-NaN value
directly: every comparison with NaN is false.  Those comparisons are
modelled by the nanLt / nanLe / nanGt helpers below.
-/

/-- A pandas timestamp, abstracted by the four derived attributes the
transformation reads off it (dt.date, dt.hour, dt.day_name(), dt.month).
The date is abstracted as an integer day index. -/
structure Timestamp where
  dateVal : Int
  hourVal : Int
  dayName : String
  monthVal : Int
deriving DecidableEq

/-- One row of BRONZE.CURRENT_WEATHER_RAW as read by the transformation
scripts.  Temperature, humidity, latitude, wind speed, wind direction,
cloud coverage and the timestamp are nullable. -/
structure RawObservation where
  cityId : String
  cityName : String
  countryCode : String
  latitude : Option ℚ
  longitude : Option ℚ
  timestamp : Option Timestamp
  weatherMain : String
  weatherDescription : String
  temperature : Option ℚ
  feelsLike : Option ℚ
  tempMin : Option ℚ
  tempMax : Option ℚ
  pressure : Option ℚ
  humidity : Option ℚ
  windSpeed : Option ℚ
  windDeg : Option ℚ
  clouds : Option ℚ
  ingestionDate : String
deriving DecidableEq

/-- Series.fillna(0): an absent numeric value becomes 0. -/
def fillna0 (x : Option ℚ) : ℚ := x.getD 0

/-- Comparison x less-than c under pandas semantics where an absent value is
NaN and every comparison with NaN is false. -/
def nanLt (x : Option ℚ) (c : ℚ) : Bool :=
  match x with
  | some v => decide (v < c)
  | none => false

/-- Comparison x less-or-equal c under pandas NaN semantics (false on NaN). -/
def nanLe (x : Option ℚ) (c : ℚ) : Bool :=
  match x with
  | some v => decide (v ≤ c)
  | none => false

/-- Comparison x greater-than c under pandas NaN semantics (false on NaN). -/
def nanGt (x : Option ℚ) (c : ℚ) : Bool :=
  match x with
  | some v => decide (c < v)
  | none => false

/-- Python abs lifted over a possibly-NaN value (abs of NaN is NaN). -/
def nanAbs (x : Option ℚ) : Option ℚ := x.map (fun v => |v|)

/-- SimpleWeatherTransformation.get_hemisphere: UNKNOWN when latitude is
absent (pd.isna check), otherwise by the sign of the latitude. -/
def get_hemisphere (latitude : Option ℚ) : String :=
  match latitude with
  | none => "UNKNOWN"
  | some l => if l > 0 then "NORTHERN" else if l < 0 then "SOUTHERN" else "EQUATORIAL"

/-- SimpleWeatherTransformation.get_climate_zone: UNKNOWN when latitude is
absent, otherwise by bands of the absolute latitude. -/
def get_climate_zone (latitude : Option ℚ) : String :=
  match latitude with
  | none => "UNKNOWN"
  | some l =>
    if |l| ≤ 23.5 then "TROPICAL"
    else if |l| ≤ 35 then "SUBTROPICAL"
    else if |l| ≤ 55 then "TEMPERATE"
    else "POLAR"

/-- WeatherDataTransformation.get_hemisphere (checkpoint variant): no
pd.isna check, so an absent latitude flows through NaN comparisons. -/
def get_hemisphere_ckpt (latitude : Option ℚ) : String :=
  if nanGt latitude 0 then "NORTHERN"
  else if nanLt latitude 0 then "SOUTHERN"
  else "EQUATORIAL"

/-- WeatherDataTransformation.get_climate_zone (checkpoint variant): no
pd.isna check; abs of NaN is NaN and all band tests come out false. -/
def get_climate_zone_ckpt (latitude : Option ℚ) : String :=
  if nanLe (nanAbs latitude) 23.5 then "TROPICAL"
  else if nanLe (nanAbs latitude) 35 then "SUBTROPICAL"
  else if nanLe (nanAbs latitude) 55 then "TEMPERATE"
  else "POLAR"

/-- categorize_temperature from the simple variant: UNKNOWN when the
temperature is absent (pd.isna check), otherwise five bands. -/
def categorize_temperature (temp : Option ℚ) : String :=
  match temp with
  | none => "UNKNOWN"
  | some t =>
    if t < 0 then "FREEZING"
    else if t < 10 then "COLD"
    else if t < 20 then "COOL"
    else if t < 30 then "WARM"
    else "HOT"

/-- categorize_temperature from the checkpoint variant: no pd.isna check,
so a NaN temperature fails every band test and falls to HOT. -/
def categorize_temperature_ckpt (temp : Option ℚ) : String :=
  if nanLt temp 0 then "FREEZING"
  else if nanLt temp 10 then "COLD"
  else if nanLt temp 20 then "COOL"
  else if nanLt temp 30 then "WARM"
  else "HOT"

/-- categorize_humidity from the simple variant. -/
def categorize_humidity (humidity : Option ℚ) : String :=
  match humidity with
  | none => "UNKNOWN"
  | some h =>
    if h < 30 then "DRY"
    else if h < 60 then "COMFORTABLE"
    else if h < 80 then "HUMID"
    else "VERY_HUMID"

/-- The wind adjustment of calculate_comfort_index: 2 times the distance of
the wind speed from 5, and 0 when the wind speed is absent. -/
def wind_penalty (wind_speed : Option ℚ) : ℚ :=
  match wind_speed with
  | some w => |w - 5| * 2
  | none => 0

/-- SimpleWeatherTransformation.calculate_comfort_index (identical in the
checkpoint variant): None when temperature or humidity is absent; otherwise
the temperature score is clamped at 0 below, the humidity and wind
penalties are subtracted, and the result is clamped to the range 0..100. -/
def calculate_comfort_index (temp humidity wind_speed : Option ℚ) : Option ℚ :=
  match temp, humidity with
  | some t, some h =>
    some (max 0 (min 100 (max 0 (100 - |t - 21| * 5) - |h - 50| * 0.3 - wind_penalty wind_speed)))
  | _, _ => none

/-- Modelled from the spec: the single-outer-clamp comfort formula of
section 4.3, clamp((100 - 5 abs(T-21)) - 0.3 abs(H-50) - 2 abs(W-5), 0, 100)
with the wind term taken as 0 when wind speed is absent.  Stated only to be
compared with calculate_comfort_index, the definition taken from the code. -/
def comfort_index_spec (t h : ℚ) (wind_speed : Option ℚ) : ℚ :=
  max 0 (min 100 ((100 - 5 * |t - 21|) - 0.3 * |h - 50| - wind_penalty wind_speed))

/-- categorize_comfort from the simple variant (UNKNOWN on a null index). -/
def categorize_comfort (comfort : Option ℚ) : String :=
  match comfort with
  | none => "UNKNOWN"
  | some c =>
    if c ≥ 80 then "VERY_COMFORTABLE"
    else if c ≥ 60 then "COMFORTABLE"
    else if c ≥ 40 then "MODERATE"
    else if c ≥ 20 then "UNCOMFORTABLE"
    else "VERY_UNCOMFORTABLE"

/-- The data-quality flag of both variants: the column is initialised to
VALID and rows whose temperature satisfies (TEMP lt -50) or (TEMP gt 60)
are set to EXTREME_TEMPERATURE.  A NaN temperature fails both comparisons
and keeps the VALID flag. -/
def quality_flag (temp : Option ℚ) : String :=
  match temp with
  | none => "VALID"
  | some t => if t < -50 ∨ t > 60 then "EXTREME_TEMPERATURE" else "VALID"

/-- Python membership test `month in [a, b, c]` where the month may be the
NaN produced by dt.month on a NaT timestamp: NaN is in no list. -/
def monthIn (m : Option Int) (l : List Int) : Bool :=
  match m with
  | some v => l.contains v
  | none => false

/-- get_season (identical in both variants): WINTER for months 12, 1, 2,
SPRING for 3, 4, 5, SUMMER for 6, 7, 8, and AUTUMN for everything else,
including the NaN month of a missing timestamp. -/
def get_season (m : Option Int) : String :=
  if monthIn m [12, 1, 2] then "WINTER"
  else if monthIn m [3, 4, 5] then "SPRING"
  else if monthIn m [6, 7, 8] then "SUMMER"
  else "AUTUMN"

/-- WEATHER_SEVERITY_SCORE of the checkpoint variant, computed columnwise on
the valid frame; wind speed and cloud coverage were filled with 0 earlier,
so the arguments here are the filled values. -/
def weather_severity_score (t w h c : ℚ) : ℚ :=
  |t - 21| / 40 * 0.4 + |w - 5| / 20 * 0.3 + |h - 50| / 100 * 0.2 + (100 - c) / 100 * 0.1

/-- categorize_severity from the checkpoint variant. -/
def categorize_severity (score : ℚ) : String :=
  if score < 0.2 then "MILD"
  else if score < 0.4 then "MODERATE"
  else if score < 0.6 then "SEVERE"
  else "EXTREME"

/-- One row of SILVER.CURRENT_WEATHER_CLEANED as built by the simple
variant, restricted to the fields the claims and the daily aggregation
read.  Wind speed, wind direction and cloud coverage have been filled with
0; date, hour, day-of-week and month are null when the timestamp is. -/
structure EnrichedRow where
  cityId : String
  cityName : String
  countryCode : String
  latitude : Option ℚ
  timestamp : Option Timestamp
  weatherMain : String
  temperature : Option ℚ
  pressure : Option ℚ
  humidity : Option ℚ
  windSpeed : ℚ
  windDeg : ℚ
  clouds : ℚ
  date : Option Int
  hour : Option Int
  dayOfWeek : Option String
  month : Option Int
  season : String
  hemisphere : String
  climateZone : String
  temperatureCategory : String
  humidityCategory : String
  comfortIndex : Option ℚ
  comfortLevel : String
  dataQualityFlag : String
deriving DecidableEq

/-- The per-record feature derivation of SimpleWeatherTransformation
.transform_data: fillna(0) on wind and clouds, temporal features off the
(possibly NaT) timestamp, geographic and categorical features, comfort
index and level, and the data quality flag.  The comfort index is called
with the already-filled wind speed, as in the source. -/
def enrichRow (r : RawObservation) : EnrichedRow :=
  { cityId := r.cityId
    cityName := r.cityName
    countryCode := r.countryCode
    latitude := r.latitude
    timestamp := r.timestamp
    weatherMain := r.weatherMain
    temperature := r.temperature
    pressure := r.pressure
    humidity := r.humidity
    windSpeed := fillna0 r.windSpeed
    windDeg := fillna0 r.windDeg
    clouds := fillna0 r.clouds
    date := r.timestamp.map (fun ts => ts.dateVal)
    hour := r.timestamp.map (fun ts => ts.hourVal)
    dayOfWeek := r.timestamp.map (fun ts => ts.dayName)
    month := r.timestamp.map (fun ts => ts.monthVal)
    season := get_season (r.timestamp.map (fun ts => ts.monthVal))
    hemisphere := get_hemisphere r.latitude
    climateZone := get_climate_zone r.latitude
    temperatureCategory := categorize_temperature r.temperature
    humidityCategory := categorize_humidity r.humidity
    comfortIndex := calculate_comfort_index r.temperature r.humidity (some (fillna0 r.windSpeed))
    comfortLevel :=
      categorize_comfort (calculate_comfort_index r.temperature r.humidity (some (fillna0 r.windSpeed)))
    dataQualityFlag := quality_flag r.temperature }

/-- The valid subset after the quality gate: rows whose flag is VALID. -/
def validSubset (batch : List RawObservation) : List RawObservation :=
  batch.filter (fun r => decide (quality_flag r.temperature = "VALID"))

/-- The enriched batch written to the silver table: every VALID record,
enriched. -/
def enrichedOutput (batch : List RawObservation) : List EnrichedRow :=
  (validSubset batch).map enrichRow

/-- A value of the result dictionary returned by transform_data: a status
or message string, or a row count. -/
inductive RVal where
  | str : String → RVal
  | num : Nat → RVal
deriving DecidableEq

/-- Lookup in an association-list model of a Python dict. -/
def dictLookup {α : Type} (d : List (String × α)) (k : String) : Option α :=
  match d with
  | [] => none
  | p :: rest => if p.1 = k then some p.2 else dictLookup rest k

/-- True when a result entry carries a count rather than a string. -/
def isNum : RVal → Bool
  | RVal.num _ => true
  | RVal.str _ => false

/-- The result dictionary of SimpleWeatherTransformation.transform_data as
a function of the bronze batch, with the external store's write modelled as
succeeding (persistence is an external collaborator): WARNING with a
message when the bronze batch is empty, WARNING with a message when no rows
survive the quality gate, and otherwise SUCCESS with bronze_rows = input
size and silver_rows = number of rows written, which is the size of the
valid subset. -/
def transform_data_result (batch : List RawObservation) : List (String × RVal) :=
  if batch.isEmpty then
    [("status", RVal.str "WARNING"), ("message", RVal.str "No bronze data")]
  else if (validSubset batch).isEmpty then
    [("status", RVal.str "WARNING"), ("message", RVal.str "No valid data")]
  else
    [("status", RVal.str "SUCCESS"),
     ("bronze_rows", RVal.num batch.length),
     ("silver_rows", RVal.num (validSubset batch).length)]

/-- The status field of a run result. -/
def resultStatus (result : List (String × RVal)) : Option RVal :=
  dictLookup result "status"

/-- WeatherDataTransformation.create_daily_aggregations has no return
statement on any path and wraps its whole body in a try/except that only
logs, so its Python call value is always None: it yields no status result. -/
def create_daily_aggregations_status (rows : List EnrichedRow) : Option RVal :=
  match rows with
  | _ => none

/-- The grouping key of the daily aggregation: CITY_ID, CITY_NAME,
COUNTRY_CODE, DATE, CLIMATE_ZONE, HEMISPHERE. -/
structure GroupKey where
  cityId : String
  cityName : String
  countryCode : String
  date : Option Int
  climateZone : String
  hemisphere : String
deriving DecidableEq

/-- The grouping key of an enriched row. -/
def groupKeyOf (e : EnrichedRow) : GroupKey :=
  { cityId := e.cityId
    cityName := e.cityName
    countryCode := e.countryCode
    date := e.date
    climateZone := e.climateZone
    hemisphere := e.hemisphere }

/-- The distinct grouping keys occurring in a row list. -/
def groupKeysOf (rows : List EnrichedRow) : List GroupKey :=
  (rows.map groupKeyOf).dedup

/-- Groupby on enriched rows: each occurring key together with the rows
that carry it, in row order. -/
def groupsOf (rows : List EnrichedRow) : List (GroupKey × List EnrichedRow) :=
  (groupKeysOf rows).map (fun k => (k, rows.filter (fun e => decide (groupKeyOf e = k))))

/-- The aggregation functions named in the agg dictionary of
create_daily_aggregations.  modeFirst stands for the lambda taking the
first mode of the column. -/
inductive AggFn where
  | count | mean | amin | amax | std | modeFirst | nunique
deriving DecidableEq

/-- Insertion into a Python dict literal model: a repeated key keeps its
first position but takes the later value. -/
def dictInsert {α : Type} (d : List (String × α)) (kv : String × α) : List (String × α) :=
  if d.any (fun p => decide (p.1 = kv.1)) then
    d.map (fun p => if p.1 = kv.1 then (p.1, kv.2) else p)
  else d ++ [kv]

/-- The entries of the agg dictionary literal of create_daily_aggregations
in source order.  WEATHER_MAIN appears twice: once with the mode lambda and
once with nunique. -/
def aggDictEntries : List (String × List AggFn) :=
  [("TEMPERATURE", [AggFn.count, AggFn.mean, AggFn.amin, AggFn.amax, AggFn.std]),
   ("HUMIDITY", [AggFn.mean, AggFn.amin, AggFn.amax]),
   ("WIND_SPEED", [AggFn.mean, AggFn.amax]),
   ("PRESSURE", [AggFn.mean]),
   ("COMFORT_INDEX", [AggFn.mean]),
   ("WEATHER_MAIN", [AggFn.modeFirst]),
   ("WEATHER_MAIN", [AggFn.nunique])]

/-- The agg dictionary as Python evaluates the literal: the second
WEATHER_MAIN entry overwrites the first. -/
def aggDict : List (String × List AggFn) :=
  aggDictEntries.foldl dictInsert []

/-- The number of columns of the frame produced by groupby(...).agg(aggDict)
.reset_index(): the six grouping keys plus one column per aggregation
function in the dictionary. -/
def aggColumnCount : Nat :=
  6 + (aggDict.map (fun p => p.2.length)).sum

/-- The 20 column names create_daily_aggregations assigns to the aggregated
frame. -/
def dailyAggNames : List String :=
  ["CITY_ID", "CITY_NAME", "COUNTRY_CODE", "DATE", "CLIMATE_ZONE", "HEMISPHERE",
   "HOURLY_READINGS", "AVG_TEMPERATURE", "MIN_TEMPERATURE", "MAX_TEMPERATURE",
   "TEMPERATURE_VARIABILITY", "AVG_HUMIDITY", "MIN_HUMIDITY", "MAX_HUMIDITY",
   "AVG_WIND_SPEED", "MAX_WIND_SPEED", "AVG_PRESSURE", "AVG_COMFORT_INDEX",
   "DOMINANT_WEATHER", "WEATHER_CHANGES_COUNT"]

/-- One row of the daily summary frame, restricted to the aggregates the
claims read. -/
structure DailyRow where
  key : GroupKey
  hourlyReadings : Nat
  minTemperature : Option ℚ
  maxTemperature : Option ℚ
  dailyTempRange : Option ℚ
  weatherChangesCount : Nat
deriving DecidableEq

/-- The non-null temperatures of a group (pandas count, min and max skip
NaN). -/
def tempsOf (g : List EnrichedRow) : List ℚ :=
  g.filterMap (fun e => e.temperature)

/-- The daily summary rows the groupby-agg step computes: pandas groupby
drops rows whose DATE key is NaT, counts non-null temperatures, and takes
min and max over the non-null temperatures. -/
def buildDailyRows (rows : List EnrichedRow) : List DailyRow :=
  (groupsOf (rows.filter (fun e => e.date.isSome))).map (fun g =>
    { key := g.1
      hourlyReadings := (tempsOf g.2).length
      minTemperature := (tempsOf g.2).min?
      maxTemperature := (tempsOf g.2).max?
      dailyTempRange :=
        match (tempsOf g.2).max?, (tempsOf g.2).min? with
        | some a, some b => some (a - b)
        | _, _ => none
      weatherChangesCount := ((g.2.map (fun e => e.weatherMain)).dedup).length })

/-- The daily rows create_daily_aggregations actually writes: the column
rename raises a ValueError whenever the assigned name count differs from
the aggregated frame's column count, the surrounding try/except swallows
the error, and nothing is written. -/
def dailyAggWrittenRows (rows : List EnrichedRow) : List DailyRow :=
  if dailyAggNames.length = aggColumnCount then buildDailyRows rows else []

/-- A fully populated London observation (the spec's concrete scenario). -/
def rawLondon : RawObservation :=
  { cityId := "2643743"
    cityName := "London"
    countryCode := "GB"
    latitude := some 51.5
    longitude := some 0
    timestamp := some { dateVal := 20250, hourVal := 12, dayName := "Monday", monthVal := 7 }
    weatherMain := "Clouds"
    weatherDescription := "overcast clouds"
    temperature := some 21
    feelsLike := some 21
    tempMin := some 20
    tempMax := some 22
    pressure := some 1012
    humidity := some 50
    windSpeed := some 5
    windDeg := some 180
    clouds := some 50
    ingestionDate := "2025-07-14" }

/-- A valid observation whose timestamp is absent. -/
def rawNoTimestamp : RawObservation :=
  { rawLondon with cityId := "100", cityName := "Nowhere", timestamp := none }

/-- An observation with temperature -60, below the extreme threshold. -/
def rawExtreme : RawObservation :=
  { rawLondon with cityId := "200", cityName := "Vostok", temperature := some (-60) }

/-- A three-record bronze batch with one extreme-temperature record. -/
def demoBatch : List RawObservation :=
  [rawLondon, rawNoTimestamp, rawExtreme]

/-- C7 counterexample: in the checkpoint variant an absent latitude is
classified EQUATORIAL by get_hemisphere and POLAR by get_climate_zone,
not UNKNOWN as the claim states for every classifier. -/
theorem hemisphere_ckpt_absent_not_unknown :
    get_hemisphere_ckpt none = "EQUATORIAL" ∧ get_climate_zone_ckpt none = "POLAR"
    ∧ get_hemisphere_ckpt none ≠ "UNKNOWN" ∧ get_climate_zone_ckpt none ≠ "UNKNOWN" := by
  refine ⟨rfl, rfl, ?_, ?_⟩ <;> decide

/-- C7 amended: the simple variant's classifiers are total, boundary
inclusive and return UNKNOWN on an absent latitude exactly as claimed; the
checkpoint variant agrees with it on every present latitude but maps an
absent latitude to EQUATORIAL and POLAR instead of UNKNOWN. -/
theorem hemisphere_climate_zone_total :
    (∀ l : ℚ, get_hemisphere (some l) =
      (if l > 0 then "NORTHERN" else if l < 0 then "SOUTHERN" else "EQUATORIAL"))
    ∧ get_hemisphere none = "UNKNOWN"
    ∧ (∀ l : ℚ, get_climate_zone (some l) =
      (if |l| ≤ 23.5 then "TROPICAL" else if |l| ≤ 35 then "SUBTROPICAL"
       else if |l| ≤ 55 then "TEMPERATE" else "POLAR"))
    ∧ get_climate_zone none = "UNKNOWN"
    ∧ get_climate_zone (some 23.5) = "TROPICAL"
    ∧ get_climate_zone (some 35) = "SUBTROPICAL"
    ∧ get_climate_zone (some 55) = "TEMPERATE"
    ∧ (∀ l : ℚ, get_hemisphere_ckpt (some l) = get_hemisphere (some l))
    ∧ (∀ l : ℚ, get_climate_zone_ckpt (some l) = get_climate_zone (some l))
    ∧ get_hemisphere_ckpt none = "EQUATORIAL"
    ∧ get_climate_zone_ckpt none = "POLAR" := by
  have h235 : |(23.5 : ℚ)| = 23.5 := abs_of_nonneg (by norm_num)
  have h35 : |(35 : ℚ)| = 35 := abs_of_nonneg (by norm_num)
  have h55 : |(55 : ℚ)| = 55 := abs_of_nonneg (by norm_num)
  refine ⟨fun l => rfl, rfl, fun l => rfl, rfl, ?_, ?_, ?_, ?_, ?_, rfl, rfl⟩
  · simp only [get_climate_zone, h235]
    norm_num
  · simp only [get_climate_zone, h35]
    norm_num
  · simp only [get_climate_zone, h55]
    norm_num
  · intro l
    simp [get_hemisphere_ckpt, get_hemisphere, nanGt, nanLt]
  · intro l
    simp [get_climate_zone_ckpt, get_climate_zone, nanLe, nanAbs]

/-- C8 counterexample: the checkpoint variant's categorize_temperature has
no absence check, so an absent (NaN) temperature fails every band test and
is categorized HOT, not UNKNOWN. -/
theorem categorize_temperature_ckpt_absent_hot :
    categorize_temperature_ckpt none = "HOT" ∧ categorize_temperature_ckpt none ≠ "UNKNOWN" := by
  exact ⟨rfl, by decide⟩

/-- C8 amended: on every finite temperature both variants agree and
partition the rationals into exactly the five bands FREEZING, COLD, COOL,
WARM, HOT with boundaries 0, 10, 20, 30 closed on the upper band; the
simple variant returns UNKNOWN on an absent temperature while the
checkpoint variant returns HOT. -/
theorem categorize_temperature_partition :
    (∀ t : ℚ, (categorize_temperature (some t) = "FREEZING" ↔ t < 0)
      ∧ (categorize_temperature (some t) = "COLD" ↔ 0 ≤ t ∧ t < 10)
      ∧ (categorize_temperature (some t) = "COOL" ↔ 10 ≤ t ∧ t < 20)
      ∧ (categorize_temperature (some t) = "WARM" ↔ 20 ≤ t ∧ t < 30)
      ∧ (categorize_temperature (some t) = "HOT" ↔ 30 ≤ t))
    ∧ (∀ t : ℚ, categorize_temperature_ckpt (some t) = categorize_temperature (some t))
    ∧ categorize_temperature none = "UNKNOWN"
    ∧ categorize_temperature_ckpt none = "HOT" := by
  refine ⟨?_, ?_, rfl, rfl⟩
  · intro t
    refine ⟨?_, ?_, ?_, ?_, ?_⟩ <;>
      · simp only [categorize_temperature]
        split_ifs with h1 h2 h3 h4 <;>
          simp <;>
            first
              | linarith
              | (intro h; linarith)
              | (constructor <;> linarith)
  · intro t
    simp [categorize_temperature_ckpt, categorize_temperature, nanLt]

/-- The wind penalty is never negative. -/
lemma wind_penalty_nonneg (w : Option ℚ) : 0 ≤ wind_penalty w := by
  cases w with
  | none => simp [wind_penalty]
  | some v => simp only [wind_penalty]; positivity

/-- Clamping the first summand at 0 below commutes with the outer clamp to
the range 0..100 when the remaining summands are subtracted penalties and
the first summand never exceeds 100. -/
lemma clamp_absorb (a b c : ℚ) (hb : 0 ≤ b) (hc : 0 ≤ c) :
    max 0 (min 100 (max 0 a - b - c)) = max 0 (min 100 (a - b - c)) := by
  rcases le_total 0 a with h | h
  · rw [max_eq_right h]
  · rw [max_eq_left h]
    rw [min_eq_right (by linarith : (0 : ℚ) - b - c ≤ 100),
      min_eq_right (by linarith : a - b - c ≤ 100),
      max_eq_left (by linarith : (0 : ℚ) - b - c ≤ 0),
      max_eq_left (by linarith : a - b - c ≤ 0)]

/-- On present temperature and humidity the code's comfort index equals the
spec's single-outer-clamp formula. -/
lemma calculate_comfort_index_eq_spec (t h : ℚ) (w : Option ℚ) :
    calculate_comfort_index (some t) (some h) w = some (comfort_index_spec t h w) := by
  simp only [calculate_comfort_index, comfort_index_spec]
  congr 1
  have e1 : (100 : ℚ) - 5 * |t - 21| = 100 - |t - 21| * 5 := by ring
  have e2 : (0.3 : ℚ) * |h - 50| = |h - 50| * 0.3 := by ring
  rw [e1, e2]
  have hsub : (100 : ℚ) - |t - 21| * 5 - |h - 50| * 0.3 - wind_penalty w
      = 100 - |t - 21| * 5 - (|h - 50| * 0.3) - wind_penalty w := by ring
  exact clamp_absorb (100 - |t - 21| * 5) (|h - 50| * 0.3) (wind_penalty w)
    (by positivity) (wind_penalty_nonneg w)

/-- C1: the comfort index is null exactly when temperature or humidity is
absent; on present inputs the code's value (which clamps the temperature
score at 0 before subtracting the penalties) equals the spec's single outer
clamp with the wind term 0 on absent wind; every returned value lies in the
range 0..100; and the comfort index of an enriched row is null exactly when
the raw temperature or humidity was absent. -/
theorem comfort_index_ok (t h w : Option ℚ) (r : RawObservation) :
    (calculate_comfort_index t h w = none ↔ (t = none ∨ h = none))
    ∧ (∀ tv hv : ℚ, t = some tv → h = some hv →
        calculate_comfort_index t h w = some (comfort_index_spec tv hv w))
    ∧ (∀ c : ℚ, calculate_comfort_index t h w = some c → 0 ≤ c ∧ c ≤ 100)
    ∧ ((enrichRow r).comfortIndex = none ↔ (r.temperature = none ∨ r.humidity = none)) := by
  refine ⟨?_, ?_, ?_, ?_⟩
  · cases t <;> cases h <;> simp [calculate_comfort_index]
  · intro tv hv htv hhv
    subst htv
    subst hhv
    exact calculate_comfort_index_eq_spec tv hv w
  · intro c hc
    cases t with
    | none => simp [calculate_comfort_index] at hc
    | some tv =>
      cases h with
      | none => simp [calculate_comfort_index] at hc
      | some hv =>
        simp only [calculate_comfort_index, Option.some.injEq] at hc
        subst hc
        constructor
        · exact le_max_left 0 _
        · exact max_le (by norm_num) (min_le_left _ _)
  · show calculate_comfort_index r.temperature r.humidity (some (fillna0 r.windSpeed)) = none
      ↔ (r.temperature = none ∨ r.humidity = none)
    cases hr : r.temperature <;> cases hh : r.humidity <;> simp [calculate_comfort_index]

/-- C1 witness: the spec's London scenario, temperature 21, humidity 50,
wind 5: the code value coincides with the spec formula, and that value
is 100. -/
theorem comfort_index_ok_witness :
    calculate_comfort_index (some 21) (some 50) (some 5) = some (comfort_index_spec 21 50 (some 5))
    ∧ comfort_index_spec 21 50 (some 5) = 100 := by
  constructor
  · exact (comfort_index_ok (some 21) (some 50) (some 5) rawLondon).2.1 21 50 rfl rfl
  · simp only [comfort_index_spec, wind_penalty]
    norm_num

/-- Membership in the valid subset is membership in the batch with a VALID
quality flag. -/
lemma mem_validSubset {r : RawObservation} {batch : List RawObservation} :
    r ∈ validSubset batch ↔ r ∈ batch ∧ quality_flag r.temperature = "VALID" := by
  simp [validSubset, List.mem_filter]

/-- Every row of the enriched output carries the VALID flag. -/
lemma mem_enrichedOutput_valid {e : EnrichedRow} {batch : List RawObservation} :
    e ∈ enrichedOutput batch → e.dataQualityFlag = "VALID" := by
  intro he
  simp only [enrichedOutput, List.mem_map] at he
  obtain ⟨v, hv, rfl⟩ := he
  exact (mem_validSubset.mp hv).2

/-- Every member of a group of groupsOf is a member of the grouped list. -/
lemma mem_of_mem_groupsOf {e : EnrichedRow} {g : GroupKey × List EnrichedRow}
    {rows : List EnrichedRow} (hg : g ∈ groupsOf rows) (he : e ∈ g.2) : e ∈ rows := by
  simp only [groupsOf, List.mem_map] at hg
  obtain ⟨k, _, rfl⟩ := hg
  exact (List.mem_filter.mp he).1

/-- C2: the quality flag is EXTREME_TEMPERATURE exactly when the
temperature is present and strictly outside the range -50..60, an absent
temperature yields VALID, and a flagged record appears neither in the valid
subset, nor in the enriched output, nor in any group handed to the daily
aggregation. -/
theorem quality_gate_ok (r : RawObservation) (batch : List RawObservation) :
    (quality_flag r.temperature = "EXTREME_TEMPERATURE"
      ↔ ∃ t : ℚ, r.temperature = some t ∧ (t < -50 ∨ 60 < t))
    ∧ (r.temperature = none → quality_flag r.temperature = "VALID")
    ∧ (quality_flag r.temperature = "EXTREME_TEMPERATURE" → r ∉ validSubset batch)
    ∧ (∀ e ∈ enrichedOutput batch, e.dataQualityFlag = "VALID")
    ∧ (quality_flag r.temperature = "EXTREME_TEMPERATURE" →
        ∀ g ∈ groupsOf (enrichedOutput batch), enrichRow r ∉ g.2) := by
    refine ⟨?_, ?_, ?_, ?_, ?_⟩
    · cases ht : r.temperature with
      | none => simp [quality_flag]
      | some t =>
        simp only [quality_flag, Option.some.injEq]
        split_ifs with h
        · exact ⟨fun _ => ⟨t, rfl, h⟩, fun _ => rfl⟩
        · constructor
          · intro hv
            exact absurd hv (by decide)
          · rintro ⟨t2, rfl, hlt⟩
            exact absurd hlt h
    · intro ht
      simp [quality_flag, ht]
    · intro hf hmem
      have := (mem_validSubset.mp hmem).2
      rw [hf] at this
      exact absurd this (by decide)
    · intro e he
      exact mem_enrichedOutput_valid he
    · intro hf g hg hmem
      have hin : enrichRow r ∈ enrichedOutput batch := mem_of_mem_groupsOf hg hmem
      have hvalid : (enrichRow r).dataQualityFlag = "VALID" := mem_enrichedOutput_valid hin
      have hflag : (enrichRow r).dataQualityFlag = quality_flag r.temperature := rfl
      rw [hflag, hf] at hvalid
      exact absurd hvalid (by decide)

/-- C2 witness: the record with temperature -60 is flagged
EXTREME_TEMPERATURE and is excluded from the valid subset of the demo
batch. -/
theorem quality_gate_ok_witness :
    quality_flag rawExtreme.temperature = "EXTREME_TEMPERATURE"
    ∧ rawExtreme ∉ validSubset demoBatch := by
  constructor
  · decide
  · exact (quality_gate_ok rawExtreme demoBatch).2.2.1 (by decide)

/-- C3: the severity score of the checkpoint variant, computed on the
filled wind speed and cloud coverage (absent values become 0), equals the
claimed weighted-deviation formula; it is non-negative whenever the filled
cloud coverage lies in the range 0..100; and categorize_severity realises
exactly the claimed bins MILD, MODERATE, SEVERE, EXTREME at the boundaries
0.2, 0.4, 0.6. -/
theorem severity_score_ok (t h : ℚ) (w c : Option ℚ)
    (hc0 : 0 ≤ fillna0 c) (hc100 : fillna0 c ≤ 100) :
    weather_severity_score t (fillna0 w) h (fillna0 c)
      = 0.4 * (|t - 21| / 40) + 0.3 * (|fillna0 w - 5| / 20)
        + 0.2 * (|h - 50| / 100) + 0.1 * ((100 - fillna0 c) / 100)
    ∧ 0 ≤ weather_severity_score t (fillna0 w) h (fillna0 c)
    ∧ (∀ s : ℚ, (categorize_severity s = "MILD" ↔ s < 0.2)
        ∧ (categorize_severity s = "MODERATE" ↔ 0.2 ≤ s ∧ s < 0.4)
        ∧ (categorize_severity s = "SEVERE" ↔ 0.4 ≤ s ∧ s < 0.6)
        ∧ (categorize_severity s = "EXTREME" ↔ 0.6 ≤ s)) := by
  refine ⟨by simp only [weather_severity_score]; ring, ?_, ?_⟩
  · have h1 : (0 : ℚ) ≤ |t - 21| := abs_nonneg _
    have h2 : (0 : ℚ) ≤ |fillna0 w - 5| := abs_nonneg _
    have h3 : (0 : ℚ) ≤ |h - 50| := abs_nonneg _
    simp only [weather_severity_score]
    nlinarith [hc0, hc100, h1, h2, h3]
  · intro s
    refine ⟨?_, ?_, ?_, ?_⟩ <;>
      · simp only [categorize_severity]
        split_ifs with h1 h2 h3 <;>
          simp <;>
            first
              | linarith
              | (intro h; linarith)
              | (constructor <;> linarith)

/-- C3 witness: the spec's London scenario, temperature 21, humidity 50,
wind 5, cloud coverage 50: the score is non-negative, and it evaluates to
0.05. -/
theorem severity_score_ok_witness :
    0 ≤ weather_severity_score 21 (fillna0 (some 5)) 50 (fillna0 (some 50))
    ∧ weather_severity_score 21 (fillna0 (some 5)) 50 (fillna0 (some 50)) = 0.05 := by
  constructor
  · exact (severity_score_ok 21 50 (some 5) (some 50) (by norm_num [fillna0])
      (by norm_num [fillna0])).2.1
  · simp only [weather_severity_score, fillna0, Option.getD_some]
    norm_num

/-- C10: any month value outside the three listed sets, including the NaN
month of an absent timestamp, falls to the AUTUMN branch; and a record with
a missing timestamp is enriched with season AUTUMN and null date, hour and
day-of-week, never an UNKNOWN season. -/
theorem season_fallback_autumn (m : Option Int) (r : RawObservation)
    (hm1 : monthIn m [12, 1, 2] = false) (hm2 : monthIn m [3, 4, 5] = false)
    (hm3 : monthIn m [6, 7, 8] = false) :
    get_season m = "AUTUMN"
    ∧ get_season none = "AUTUMN"
    ∧ (r.timestamp = none →
        (enrichRow r).season = "AUTUMN" ∧ (enrichRow r).date = none
        ∧ (enrichRow r).hour = none ∧ (enrichRow r).dayOfWeek = none
        ∧ (enrichRow r).season ≠ "UNKNOWN") := by
  refine ⟨?_, rfl, ?_⟩
  · simp [get_season, hm1, hm2, hm3]
  · intro ht
    refine ⟨?_, ?_, ?_, ?_, ?_⟩ <;> simp [enrichRow, ht, get_season, monthIn]

/-- C10 witness: month 9 is outside all three sets and maps to AUTUMN, and
the demo record without a timestamp is enriched with season AUTUMN and a
null date. -/
theorem season_fallback_autumn_witness :
    get_season (some 9) = "AUTUMN"
    ∧ (enrichRow rawNoTimestamp).season = "AUTUMN"
    ∧ (enrichRow rawNoTimestamp).date = none := by
  have h := season_fallback_autumn (some 9) rawNoTimestamp (by decide) (by decide) (by decide)
  refine ⟨h.1, (h.2.2 rfl).1, (h.2.2 rfl).2.1⟩

/-- The daily aggregation writes no rows for any input: the agg dictionary
yields 13 aggregate columns, reset_index adds the 6 keys for 19 total, and
assigning the 20 names raises, which the surrounding try/except swallows. -/
lemma dailyAgg_always_empty (rows : List EnrichedRow) : dailyAggWrittenRows rows = [] := by
  rw [dailyAggWrittenRows, if_neg]
  decide

/-- C4 (bug): in the agg dictionary of create_daily_aggregations the key
WEATHER_MAIN appears twice, so the mode lambda meant to produce
DOMINANT_WEATHER is overwritten by nunique; the aggregated frame then has
19 columns while 20 names are assigned, the rename raises, and no daily
aggregation row — in particular no DOMINANT_WEATHER value — is ever
produced: here evaluated on a one-row group for the London record. -/
theorem dominant_weather_never_computed :
    dictLookup aggDict "WEATHER_MAIN" = some [AggFn.nunique]
    ∧ (aggDictEntries.map (fun p => p.1)).count "WEATHER_MAIN" = 2
    ∧ (aggDict.map (fun p => p.2.length)).sum = 13
    ∧ aggColumnCount = 19
    ∧ dailyAggNames.length = 20
    ∧ dailyAggWrittenRows (enrichedOutput [rawLondon]) = [] := by
  refine ⟨by decide, by decide, by decide, by decide, by decide, dailyAgg_always_empty _⟩

/-- C6 (bug): for the singleton enriched batch of the London record the
daily aggregation produces no rows at all, so the sum of the per-group
reading counts is 0, not the input batch size 1. -/
theorem daily_count_sum_mismatch :
    (enrichedOutput [rawLondon]).length = 1
    ∧ dailyAggWrittenRows (enrichedOutput [rawLondon]) = []
    ∧ ((dailyAggWrittenRows (enrichedOutput [rawLondon])).map
        (fun d => d.hourlyReadings)).sum = 0 := by
  refine ⟨?_, dailyAgg_always_empty _, ?_⟩
  · decide
  · rw [dailyAgg_always_empty]
    rfl

/-- C5 counterexample: on the demo batch of 3 records with 1 rejected, the
success result carries exactly two counts (bronze_rows 3, silver_rows 2),
not three: no entry of the result reports the rejected count 1. -/
theorem success_result_two_counts :
    transform_data_result demoBatch
      = [("status", RVal.str "SUCCESS"), ("bronze_rows", RVal.num 3), ("silver_rows", RVal.num 2)]
    ∧ ((transform_data_result demoBatch).filter (fun p => isNum p.2)).length = 2
    ∧ ∀ p ∈ transform_data_result demoBatch, p.2 ≠ RVal.num 1 := by
  refine ⟨by decide, by decide, by decide⟩

/-- C5 amended: for every non-empty batch with at least one valid record
the entry point's success result reports exactly the status, the input
batch size as bronze_rows and the written-row count (the size of the valid
subset) as silver_rows; the count of records rejected by the quality gate
is not among the reported fields. -/
theorem success_result_contract (batch : List RawObservation)
    (hne : batch ≠ []) (hv : validSubset batch ≠ []) :
    transform_data_result batch
      = [("status", RVal.str "SUCCESS"),
         ("bronze_rows", RVal.num batch.length),
         ("silver_rows", RVal.num (validSubset batch).length)]
    ∧ (transform_data_result batch).map (fun p => p.1) = ["status", "bronze_rows", "silver_rows"]
    ∧ dictLookup (transform_data_result batch) "rejected_rows" = none := by
  have h1 : batch.isEmpty = false := by
    cases batch with
    | nil => exact absurd rfl hne
    | cons a l => rfl
  have h2 : (validSubset batch).isEmpty = false := by
    cases hvv : validSubset batch with
    | nil => exact absurd hvv hv
    | cons a l => rfl
  rw [transform_data_result, h1, h2]
  refine ⟨rfl, rfl, ?_⟩
  show dictLookup
      [("status", RVal.str "SUCCESS"),
       ("bronze_rows", RVal.num batch.length),
       ("silver_rows", RVal.num (validSubset batch).length)] "rejected_rows" = none
  simp [dictLookup]

/-- C5 amended witness: the contract evaluated on the demo batch. -/
theorem success_result_contract_witness :
    transform_data_result demoBatch
      = [("status", RVal.str "SUCCESS"),
         ("bronze_rows", RVal.num demoBatch.length),
         ("silver_rows", RVal.num (validSubset demoBatch).length)] :=
  (success_result_contract demoBatch (by decide) (by decide)).1

/-- C9 counterexample: on the empty batch the entry point's WARNING result
carries a message and no count fields at all (so no zero counts), and the
daily aggregation helper returns no status result whatsoever, in
particular not a WARNING one. -/
theorem empty_batch_no_zero_counts :
    (transform_data_result []).filter (fun p => isNum p.2) = []
    ∧ resultStatus (transform_data_result []) = some (RVal.str "WARNING")
    ∧ create_daily_aggregations_status [] = none
    ∧ create_daily_aggregations_status [] ≠ some (RVal.str "WARNING") := by
  refine ⟨by decide, by decide, rfl, by decide⟩

/-- C9 amended: the enrichment entry point returns status WARNING on an
empty batch and whenever no record survives the quality gate, and never
returns FAILED for any batch; its WARNING results carry a message rather
than counts; and the aggregation helper returns no status result on any
input. -/
theorem empty_batch_warning (batch : List RawObservation) :
    resultStatus (transform_data_result []) = some (RVal.str "WARNING")
    ∧ (validSubset batch = [] → resultStatus (transform_data_result batch)
        = some (RVal.str "WARNING"))
    ∧ resultStatus (transform_data_result batch) ≠ some (RVal.str "FAILED")
    ∧ (validSubset batch = [] →
        (transform_data_result batch).filter (fun p => isNum p.2) = [])
    ∧ (∀ rows : List EnrichedRow, create_daily_aggregations_status rows = none) := by
  refine ⟨by decide, ?_, ?_, ?_, fun rows => rfl⟩
  · intro hv
    rw [transform_data_result]
    cases batch with
    | nil => rfl
    | cons a l =>
      simp only [List.isEmpty_cons, if_neg]
      rw [hv]
      rfl
  · rw [transform_data_result]
    split_ifs <;> simp [resultStatus, dictLookup]
  · intro hv
    rw [transform_data_result]
    cases batch with
    | nil => rfl
    | cons a l =>
      simp only [List.isEmpty_cons, if_neg]
      rw [hv]
      rfl

/-- C9 amended witness: the all-rejected singleton batch of the extreme
record yields a WARNING status. -/
theorem empty_batch_warning_witness :
    resultStatus (transform_data_result [rawExtreme]) = some (RVal.str "WARNING")
    ∧ resultStatus (transform_data_result [rawExtreme]) ≠ some (RVal.str "FAILED") := by
  have h := empty_batch_warning [rawExtreme]
  exact ⟨h.2.1 (by decide), h.2.2.1⟩
